import Mathlib

/-!
Shallow embedding of the Site Registry and Authentication Gateway of the
zeronet-rs repository (src/controllers/sites.rs, src/plugins/web/auth_wrapper.rs,
src/core/io.rs), together with proofs about the spec's claims.

Modelling conventions:
* `HashMap` fields become association lists; `insert` prepends (newest binding
  shadows older ones, as with `HashMap::insert` overwriting), `eraseKey` filters.
* Addresses are their canonical `String` form (`Address.address` in the source).
* Actor handles (`Addr<Site>`) are modelled by natural numbers; spawning an
  actor hands out the controller's `nextHandle` counter and bumps it, so two
  distinct spawns never yield the same handle.
* `current_unix_epoch()` is a clock read; each mutating operation takes the
  clock value `now` as an explicit argument.
* External effects that are decided by code outside the three source files
  (filesystem probes, `Site::load_content`, the `DbManager`, the startup
  `SITE_STORAGE` snapshot) are parameters of an `Env` record, keyed by address.
* The `unimplemented!()` macro in `SitesController::get` terminates the process;
  it is modelled by the distinguished outcome `GetResult.panicked`.
-/

/-- Association-list lookup, the model of `HashMap::get`. -/
def lookupK {β : Type} (k : String) : List (String × β) → Option β
  | [] => none
  | (k', v) :: rest => if k' = k then some v else lookupK k rest

/-- Association-list insert, the model of `HashMap::insert` (the new binding
shadows any older binding for the same key). -/
def insertK {β : Type} (k : String) (v : β) (l : List (String × β)) :
    List (String × β) :=
  (k, v) :: l

/-- Association-list removal, the model of `HashMap::remove`. -/
def eraseKey {β : Type} (k : String) : List (String × β) → List (String × β)
  | [] => []
  | (k', v) :: rest =>
    if k' = k then eraseKey k rest else (k', v) :: eraseKey k rest

@[simp] theorem lookupK_nil {β : Type} (k : String) :
    lookupK (β := β) k [] = none := rfl

@[simp] theorem lookupK_cons {β : Type} (k k' : String) (v : β)
    (l : List (String × β)) :
    lookupK k ((k', v) :: l) = if k' = k then some v else lookupK k l := rfl

@[simp] theorem lookupK_insertK_same {β : Type} (k : String) (v : β)
    (l : List (String × β)) : lookupK k (insertK k v l) = some v := by
  simp [insertK]

@[simp] theorem lookupK_insertK_ne {β : Type} (k k' : String) (v : β)
    (l : List (String × β)) (h : k' ≠ k) :
    lookupK k (insertK k' v l) = lookupK k l := by
  simp [insertK, h]

@[simp] theorem lookupK_eraseKey_same {β : Type} (k : String)
    (l : List (String × β)) : lookupK k (eraseKey k l) = none := by
  induction l with
  | nil => rfl
  | cons p rest ih =>
    obtain ⟨k', v⟩ := p
    by_cases h : k' = k
    · simp [eraseKey, h, ih]
    · simp [eraseKey, h, ih]

@[simp] theorem lookupK_eraseKey_ne {β : Type} (k k' : String)
    (l : List (String × β)) (h : k' ≠ k) :
    lookupK k' (eraseKey k l) = lookupK k' l := by
  induction l with
  | nil => rfl
  | cons p rest ih =>
    obtain ⟨k'', v⟩ := p
    by_cases h2 : k'' = k
    · subst h2
      simp [eraseKey, Ne.symm h, ih]
    · simp [eraseKey, h2, ih]

/-- `SiteKeys` (the `keys` field of `SiteStorage` in the source): the wrapper
key and the ajax key, both opaque secret strings. -/
structure SiteKeys where
  wrapper_key : String
  ajax_key : String
deriving DecidableEq, Repr

/-- `SiteStorage`: the per-site storage metadata as used by the registry. -/
structure SiteStorage where
  keys : SiteKeys
deriving DecidableEq, Repr

/-- `Site` as the registry sees it: its canonical address string and its
attached storage metadata (`Site::new` followed by `modify_storage`). -/
structure Site where
  address : String
  storage : SiteStorage
deriving DecidableEq, Repr

/-- The registry's error type; `SitesController::get_by_key` fails with
`Error::MissingError` (the spec calls this condition `UnknownNonce`). -/
inductive ZError where
  | MissingError
deriving DecidableEq, Repr

/-- State of `SitesController` (src/controllers/sites.rs, lines 38-45).
`nextHandle` is the actor-spawn freshness counter (see module docstring);
`db_schemas` and `db_conns` record which addresses the `DbManager` holds a
schema, resp. an open connection, for. -/
structure SitesController where
  sites : List (String × Site)
  sites_addr : List (String × Nat)
  ajax_keys : List (String × String)
  nonce : List (String × String)
  sites_changed : Nat
  nextHandle : Nat
  db_schemas : List String
  db_conns : List String
deriving DecidableEq, Repr

/-- External environment of the registry: outcomes of the filesystem probes,
content loads, the `DbManager`, and the global `SITE_STORAGE` startup snapshot,
keyed by canonical address. -/
structure Env where
  contentFile : String → Bool
  loadContentOk : String → Bool
  siteStorageSnap : String → Option SiteStorage
  pathExists : String → Bool
  loadSchema : String → Bool
  connectOk : String → Bool

/-- Outcome of `SitesController::get`: success with `(address, handle)`,
a typed error (`?` on `load_content` or `connect_db`), or process panic
(the `unimplemented!()` at line 80). -/
inductive GetResult where
  | ok : String → Nat → GetResult
  | err : GetResult
  | panicked : GetResult
deriving DecidableEq, Repr

/-- `SitesController::new` (line 48): empty maps, `sites_changed` initialised
from the clock. -/
def SitesController.new (now : Nat) : SitesController :=
  { sites := [], sites_addr := [], ajax_keys := [], nonce := [],
    sites_changed := now, nextHandle := 0, db_schemas := [], db_conns := [] }

/-- `update_sites_changed` (line 164): store the clock reading. -/
def SitesController.update_sites_changed (now : Nat) (s : SitesController) :
    SitesController :=
  { s with sites_changed := now }

/-- `SitesController::get_by_key` (lines 103-111): nonce → address, then
address → handle; `Error::MissingError` if either hop misses. The function
takes `&mut self` but performs no writes, so the returned state is the input
state. -/
def SitesController.get_by_key (s : SitesController) (key : String) :
    Except ZError (String × Nat) × SitesController :=
  match lookupK key s.nonce with
  | some address =>
    match lookupK address s.sites_addr with
    | some addr => (Except.ok (address, addr), s)
    | none => (Except.error ZError.MissingError, s)
  | none => (Except.error ZError.MissingError, s)

/-- `SitesController::add_site` (lines 113-116). -/
def SitesController.add_site (now : Nat) (s : SitesController) (site : Site) :
    SitesController :=
  { s with sites := insertK site.address site s.sites, sites_changed := now }

/-- `SitesController::get_site` (lines 118-120). -/
def SitesController.get_site (s : SitesController) (site_addr : String) :
    Option Site :=
  lookupK site_addr s.sites

/-- `SitesController::remove_site` (lines 126-129). -/
def SitesController.remove_site (now : Nat) (s : SitesController)
    (address : String) : SitesController :=
  { s with sites := eraseKey address s.sites, sites_changed := now }

/-- `SitesController::extend_sites` (lines 159-162): `HashMap::extend` over
the argument map, then `update_sites_changed`. -/
def SitesController.extend_sites (now : Nat) (s : SitesController)
    (sites : List (String × Site)) : SitesController :=
  { s with
    sites := (sites.foldl (fun acc p => insertK p.1 p.2 acc) s.sites),
    sites_changed := now }

/-- Spawning the site actor (`site.clone().start()`, line 98) and storing its
handle (line 99): the fresh handle is `nextHandle`, which is then bumped so a
later spawn never reuses it. -/
def SitesController.spawnSite (s : SitesController) (address : String) :
    GetResult × SitesController :=
  (GetResult.ok address s.nextHandle,
    { s with
      sites_addr := insertK address s.nextHandle s.sites_addr,
      nextHandle := s.nextHandle + 1 })

/-- The activation path of `SitesController::get` from line 77 on: panic
(`unimplemented!()`) when the content manifest file is absent; otherwise
attach storage, load content (`?` on failure), bind the wrapper key from the
`SITE_STORAGE` snapshot when non-empty, load/insert the schema and connect the
database (`?` on failure), store the clock in `sites_changed`, then spawn the
actor and store its handle. -/
def SitesController.getFresh (env : Env) (now : Nat) (s : SitesController)
    (address : String) : GetResult × SitesController :=
  if env.contentFile address then
    if env.loadContentOk address then
      let s1 :=
        match env.siteStorageSnap address with
        | some st =>
          if st.keys.wrapper_key ≠ "" then
            { s with nonce := insertK st.keys.wrapper_key address s.nonce }
          else s
        | none => s
      if env.loadSchema address then
        let s2 := { s1 with db_schemas := address :: s1.db_schemas }
        if env.connectOk address then
          let s3 :=
            { s2 with
              db_conns := address :: s2.db_conns,
              sites_changed := now }
          SitesController.spawnSite s3 address
        else (GetResult.err, s2)
      else SitesController.spawnSite { s1 with sites_changed := now } address
    else (GetResult.err, s)
  else (GetResult.panicked, s)

/-- `SitesController::get` (lines 59-101): if a handle exists for the address
and the content manifest file is present, return the cached handle with no
state change; otherwise run the activation path. -/
def SitesController.get (env : Env) (now : Nat) (s : SitesController)
    (address : String) : GetResult × SitesController :=
  match lookupK address s.sites_addr with
  | some addr =>
    if env.contentFile address then (GetResult.ok address addr, s)
    else SitesController.getFresh env now s address
  | none => SitesController.getFresh env now s address

/-- The `Site` value built for one bootstrap entry: `Site::new` at the entry's
address followed by `modify_storage(site_storage)`. -/
def mkSite (address : String) (st : SiteStorage) : Site :=
  { address := address, storage := st }

/-- One iteration of the loop in `extend_sites_from_sitedata` (lines 132-155):
skip when the site directory is missing or the content load fails; otherwise
register the site and bind its wrapper key and ajax key to the address. -/
def processEntry (env : Env) (s : SitesController) (e : String × SiteStorage) :
    SitesController :=
  if env.pathExists e.1 then
    if env.loadContentOk e.1 then
      { s with
        sites := insertK e.1 (mkSite e.1 e.2) s.sites,
        nonce := insertK e.2.keys.wrapper_key e.1 s.nonce,
        ajax_keys := insertK e.2.keys.ajax_key e.1 s.ajax_keys }
    else s
  else s

/-- `SitesController::extend_sites_from_sitedata` (lines 131-157): process
every entry (iteration order of the `HashMap` is unspecified; the model takes
the entries as a list), then `update_sites_changed`. -/
def SitesController.extend_sites_from_sitedata (env : Env) (now : Nat)
    (s : SitesController) (entries : List (String × SiteStorage)) :
    SitesController :=
  SitesController.update_sites_changed now (entries.foldl (processEntry env) s)

/-- A registry operation together with the clock value read while it runs. -/
inductive RegOp where
  | add : Nat → Site → RegOp
  | remove : Nat → String → RegOp
  | extendOp : Nat → List (String × Site) → RegOp
  | bootstrap : Nat → List (String × SiteStorage) → RegOp
  | activate : Nat → String → RegOp

/-- The clock value an operation reads. -/
def RegOp.clock : RegOp → Nat
  | .add n _ => n
  | .remove n _ => n
  | .extendOp n _ => n
  | .bootstrap n _ => n
  | .activate n _ => n

/-- The state transition of one registry operation. -/
def stepOp (env : Env) (s : SitesController) : RegOp → SitesController
  | .add n site => SitesController.add_site n s site
  | .remove n a => SitesController.remove_site n s a
  | .extendOp n m => SitesController.extend_sites n s m
  | .bootstrap n es => SitesController.extend_sites_from_sitedata env n s es
  | .activate n a => (SitesController.get env n s a).2

/-- Run a sequence of registry operations. -/
def runOps (env : Env) (s : SitesController) : List RegOp → SitesController
  | [] => s
  | op :: rest => runOps env (stepOp env s op) rest

/-- The wall clock never runs backwards along the sequence: each operation's
clock reading is at least the `sites_changed` value stored at that point. -/
def ClockOk (env : Env) (s : SitesController) : List RegOp → Prop
  | [] => True
  | op :: rest => s.sites_changed ≤ op.clock ∧ ClockOk env (stepOp env s op) rest

instance (env : Env) (s : SitesController) (ops : List RegOp) :
    Decidable (ClockOk env s ops) := by
  induction ops generalizing s with
  | nil => exact isTrue trivial
  | cons op rest ih =>
    have := ih (stepOp env s op)
    exact instDecidableAnd

/-- An HTTP response as the Auth Gateway produces it: status code and body. -/
structure HttpResponse where
  status : Nat
  body : String
deriving DecidableEq, Repr

/-- Environment of `serve_auth_wrapper_key`: the address parser
(`Address::from_str`, external to the three source files), the configured
process-wide secret `ENV.access_key`, and whether the mailbox send of the
`AddWrapperKey` message to the site controller succeeds. -/
structure AuthEnv where
  parseAddress : String → Option String
  access_key : String
  bindOk : Bool

/-- Observable outcome of one `serve_auth_wrapper_key` call: the HTTP
response, the shared `wrapper_nonces` audit set afterwards, and the
`AddWrapperKey (address, nonce)` bind request sent to the Registry, if any. -/
structure AuthResult where
  response : HttpResponse
  wrapper_nonces : List String
  bindRequest : Option (String × String)
deriving DecidableEq, Repr

/-- `serve_auth_wrapper_key` (src/plugins/web/auth_wrapper.rs, lines 17-71).
The freshly generated random nonce (`Uuid::new_v4().simple()`) is a parameter;
the function first inserts it into the shared audit set, then reads the query
parameters (absent ones default to the empty string), parses the address,
checks the presented key, and only then sends the bind request. -/
def serve_auth_wrapper_key (env : AuthEnv) (nonces : List String)
    (nonce : String) (query : List (String × String)) : AuthResult :=
  let nonces1 := nonce :: nonces
  let address_string := (lookupK "address" query).getD ""
  match env.parseAddress address_string with
  | none =>
    { response :=
        { status := 200,
          body := address_string ++ " is a malformed ZeroNet address" },
      wrapper_nonces := nonces1,
      bindRequest := none }
  | some address =>
    let access_key := (lookupK "access_key" query).getD ""
    if access_key = "" then
      { response :=
          { status := 200,
            body := "This API is restricted, use access_key param to Authenticate, get valid wrapper key" },
        wrapper_nonces := nonces1,
        bindRequest := none }
    else if access_key ≠ env.access_key then
      { response := { status := 200, body := "Provided access_key is not Valid" },
        wrapper_nonces := nonces1,
        bindRequest := none }
    else if env.bindOk then
      { response := { status := 200, body := "wrapper_key=" ++ nonce },
        wrapper_nonces := nonces1,
        bindRequest := some (address, nonce) }
    else
      { response := { status := 400, body := "" },
        wrapper_nonces := nonces1,
        bindRequest := some (address, nonce) }

/-- Modelled from the spec: `Address::from_str` (src/core/address.rs is not in
the source tree). Per §4.1 the parse fails with `MalformedAddress` unless the
string matches the canonical encoding; per §8, `1Address111` is valid while
`not-an-address` and the empty string are not: the model accepts exactly the
non-empty alphanumeric strings starting with the character `1`. -/
def Address.fromStr (s : String) : Option String :=
  if s ≠ "" ∧ s.toList.head? = some '1' ∧ s.toList.all Char.isAlphanum
  then some s else none

/-! ## Concrete data for witnesses -/

/-- A concrete environment: every site directory and manifest present, content
loads, no schema declared, database connects. -/
def envAllPresent : Env :=
  { contentFile := fun _ => true,
    loadContentOk := fun _ => true,
    siteStorageSnap := fun _ => none,
    pathExists := fun _ => true,
    loadSchema := fun _ => false,
    connectOk := fun _ => true }

/-- A concrete environment where each site root exists but every content
manifest file is absent. -/
def envNoManifest : Env :=
  { contentFile := fun _ => false,
    loadContentOk := fun _ => false,
    siteStorageSnap := fun _ => none,
    pathExists := fun _ => true,
    loadSchema := fun _ => false,
    connectOk := fun _ => false }

/-- A concrete auth environment using the spec-modelled address parser and the
configured secret of the spec's end-to-end example. -/
def authEnvDemo : AuthEnv :=
  { parseAddress := Address.fromStr, access_key := "secret123", bindOk := true }

/-- The demo site record for `sDemo`. -/
def siteDemo : Site :=
  { address := "1Address111",
    storage := { keys := { wrapper_key := "wk1", ajax_key := "ak1" } } }

/-- A concrete registry state with one activated site. -/
def sDemo : SitesController :=
  { sites := [("1Address111", siteDemo)],
    sites_addr := [("1Address111", 7)],
    ajax_keys := [("ak1", "1Address111")],
    nonce := [("wk1", "1Address111")],
    sites_changed := 5,
    nextHandle := 8,
    db_schemas := [],
    db_conns := [] }

/-! ## Helper lemmas -/

/-- When a handle is cached and the manifest file is present, `get` returns the
cached handle and the state is untouched (lines 68-72 of sites.rs). -/
theorem get_cached (env : Env) (now : Nat) (s : SitesController)
    (address : String) (h : Nat)
    (hh : lookupK address s.sites_addr = some h)
    (hc : env.contentFile address = true) :
    SitesController.get env now s address = (GetResult.ok address h, s) := by
  simp [SitesController.get, hh, hc]

/-! ## Claims -/

/-- C1: the spec demands that activation of an address whose root exists but
whose content manifest is absent fail with a typed, recoverable
`ContentUnavailable` error and never panic. The code instead executes
`unimplemented!()` (sites.rs line 80), terminating the process: at a concrete
state with a present root and an absent manifest, `get` reaches the panic. -/
theorem C1_missing_manifest_panics :
    envNoManifest.pathExists "1MissingManifest" = true ∧
    envNoManifest.contentFile "1MissingManifest" = false ∧
    (SitesController.get envNoManifest 0 (SitesController.new 0)
      "1MissingManifest").1 = GetResult.panicked := by
  refine ⟨rfl, rfl, ?_⟩
  rfl

/-- C3: `get_by_key` succeeds with `(address, handle)` iff the key maps to an
address in the nonce map and that address has a handle; otherwise it fails
with `Error::MissingError` (the spec's `UnknownNonce`); in both cases the
registry state is returned unchanged, so a successful resolve does not consume
the nonce. -/
theorem C3_get_by_key_characterisation (s : SitesController) (key : String) :
    (SitesController.get_by_key s key).2 = s ∧
    (∀ a h, (SitesController.get_by_key s key).1 = Except.ok (a, h) ↔
      (lookupK key s.nonce = some a ∧ lookupK a s.sites_addr = some h)) ∧
    ((SitesController.get_by_key s key).1 = Except.error ZError.MissingError ↔
      ¬ ∃ a h, lookupK key s.nonce = some a ∧ lookupK a s.sites_addr = some h) := by
  cases hn : lookupK key s.nonce with
  | none =>
    simp [SitesController.get_by_key, hn]
  | some a0 =>
    cases ha : lookupK a0 s.sites_addr with
    | none =>
      refine ⟨?_, ?_, ?_⟩
      · simp [SitesController.get_by_key, hn, ha]
      · intro a h
        simp only [SitesController.get_by_key, hn, ha]
        constructor
        · intro hcontra
          simp at hcontra
        · rintro ⟨h1, h2⟩
          rw [Option.some_inj] at h1
          subst h1
          rw [ha] at h2
          simp at h2
      · simp only [SitesController.get_by_key, hn, ha]
        constructor
        · rintro - ⟨a, h, h1, h2⟩
          rw [Option.some_inj] at h1
          subst h1
          rw [ha] at h2
          simp at h2
        · intro _
          trivial
    | some h0 =>
      refine ⟨?_, ?_, ?_⟩
      · simp [SitesController.get_by_key, hn, ha]
      · intro a h
        simp only [SitesController.get_by_key, hn, ha]
        constructor
        · intro hok
          simp only [Except.ok.injEq, Prod.mk.injEq] at hok
          obtain ⟨h1, h2⟩ := hok
          subst h1
          subst h2
          exact ⟨rfl, ha⟩
        · rintro ⟨h1, h2⟩
          rw [Option.some_inj] at h1
          subst h1
          rw [ha] at h2
          rw [Option.some_inj] at h2
          subst h2
          rfl
      · simp only [SitesController.get_by_key, hn, ha]
        constructor
        · intro hcontra
          simp at hcontra
        · intro hno
          exact absurd ⟨a0, h0, rfl, ha⟩ hno

/-- C6: when a handle is cached for the address and the content manifest file
is present, `get` returns exactly the cached handle and the whole registry
state — the handle map, the freshness counter used to spawn actors, the
database records, and `sites_changed` — is unchanged. -/
theorem C6_cached_activation_idempotent (env : Env) (now : Nat)
    (s : SitesController) (address : String) (h : Nat)
    (hh : lookupK address s.sites_addr = some h)
    (hc : env.contentFile address = true) :
    SitesController.get env now s address = (GetResult.ok address h, s) :=
  get_cached env now s address h hh hc

/-- C6 witness: the cached-handle return at a concrete state. -/
theorem C6_cached_activation_idempotent_witness :
    SitesController.get envAllPresent 42 sDemo "1Address111" =
      (GetResult.ok "1Address111" 7, sDemo) :=
  C6_cached_activation_idempotent envAllPresent 42 sDemo "1Address111" 7
    (by decide) (by rfl)

/-- C8: `remove_site` removes exactly the `sites` entry (lookup by address then
misses) and stores the clock in `sites_changed`; the handle map, the nonce map
and the ajax-key map are untouched, and a previously cached handle is still
returned by a later `get` on the shrunk state. -/
theorem C8_remove_site_frame (now : Nat) (s : SitesController)
    (address : String) :
    lookupK address (SitesController.remove_site now s address).sites = none ∧
    (SitesController.remove_site now s address).sites_changed = now ∧
    (SitesController.remove_site now s address).sites_addr = s.sites_addr ∧
    (SitesController.remove_site now s address).nonce = s.nonce ∧
    (SitesController.remove_site now s address).ajax_keys = s.ajax_keys ∧
    (∀ env now2 h, lookupK address s.sites_addr = some h →
      env.contentFile address = true →
      (SitesController.get env now2 (SitesController.remove_site now s address)
        address).1 = GetResult.ok address h) := by
  refine ⟨?_, rfl, rfl, rfl, rfl, ?_⟩
  · simp [SitesController.remove_site]
  · intro env now2 h hh hc
    have := get_cached env now2 (SitesController.remove_site now s address)
      address h hh hc
    rw [this]

/-- C8 witness: removing the demo site leaves the cached handle usable. -/
theorem C8_remove_site_frame_witness :
    lookupK "1Address111"
      (SitesController.remove_site 50 sDemo "1Address111").sites = none ∧
    (SitesController.get envAllPresent 51
      (SitesController.remove_site 50 sDemo "1Address111") "1Address111").1 =
      GetResult.ok "1Address111" 7 := by
  refine ⟨(C8_remove_site_frame 50 sDemo "1Address111").1, ?_⟩
  exact (C8_remove_site_frame 50 sDemo "1Address111").2.2.2.2.2
    envAllPresent 51 7 (by decide) (by rfl)
/-- C2 counterexample: on a malformed-address request (so no match happened)
the handler has already generated a nonce and added it to the shared audit
set: starting from an empty set the post-set holds the fresh nonce, refuting
"generates no nonce, adds nothing to the shared nonce-audit set"; only the
bind request is withheld. -/
theorem C2_counterexample_nonce_added_on_failure :
    (serve_auth_wrapper_key authEnvDemo [] "n0"
      [("address", "not-an-address"), ("access_key", "secret123")]).response.body =
      "not-an-address is a malformed ZeroNet address" ∧
    (serve_auth_wrapper_key authEnvDemo [] "n0"
      [("address", "not-an-address"), ("access_key", "secret123")]).wrapper_nonces =
      ["n0"] ∧
    (serve_auth_wrapper_key authEnvDemo [] "n0"
      [("address", "not-an-address"), ("access_key", "secret123")]).bindRequest =
      none := by
  refine ⟨?_, ?_, ?_⟩ <;> decide

/-- C2 (amended): the nonce is generated and recorded in the shared audit set
on every request, before any validation; the bind request `(address, nonce)` is
sent to the Registry exactly when the address parses and the presented
non-empty secret equals the configured secret. -/
theorem C2_bind_request_only_on_match (env : AuthEnv) (nonces : List String)
    (nonce : String) (query : List (String × String)) :
    (serve_auth_wrapper_key env nonces nonce query).wrapper_nonces =
      nonce :: nonces ∧
    (∀ a, (serve_auth_wrapper_key env nonces nonce query).bindRequest =
        some (a, nonce) ↔
      (env.parseAddress ((lookupK "address" query).getD "") = some a ∧
        (lookupK "access_key" query).getD "" ≠ "" ∧
        (lookupK "access_key" query).getD "" = env.access_key)) ∧
    ((serve_auth_wrapper_key env nonces nonce query).bindRequest = none ↔
      (env.parseAddress ((lookupK "address" query).getD "") = none ∨
        (lookupK "access_key" query).getD "" = "" ∨
        (lookupK "access_key" query).getD "" ≠ env.access_key)) := by
  cases hp : env.parseAddress ((lookupK "address" query).getD "") with
  | none =>
    refine ⟨by simp [serve_auth_wrapper_key, hp], ?_, ?_⟩
    · intro a
      simp [serve_auth_wrapper_key, hp]
    · simp [serve_auth_wrapper_key, hp]
  | some a0 =>
    by_cases hk : (lookupK "access_key" query).getD "" = ""
    · refine ⟨by simp [serve_auth_wrapper_key, hp, hk], ?_, ?_⟩
      · intro a
        simp [serve_auth_wrapper_key, hp, hk]
      · simp [serve_auth_wrapper_key, hp, hk]
    · by_cases hm : (lookupK "access_key" query).getD "" = env.access_key
      · have hne : env.access_key ≠ "" := by
          rw [← hm]
          exact hk
        refine ⟨?_, ?_, ?_⟩
        · cases hb : env.bindOk <;>
            simp [serve_auth_wrapper_key, hp, hk, hm, hne, hb]
        · intro a
          cases hb : env.bindOk <;>
            simp [serve_auth_wrapper_key, hp, hk, hm, hne, hb, eq_comm]
        · cases hb : env.bindOk <;>
            simp [serve_auth_wrapper_key, hp, hk, hm, hne, hb]
      · refine ⟨by simp [serve_auth_wrapper_key, hp, hk, hm], ?_, ?_⟩
        · intro a
          simp [serve_auth_wrapper_key, hp, hk, hm]
        · simp [serve_auth_wrapper_key, hp, hk, hm]
/-- C4: response cases of the Auth Gateway, in the order the code checks them:
malformed address (regardless of the key), empty key, wrong key, and the
wrapper-key body exactly when the key matches and the bind send succeeds
(status 400 when the bind send fails). All advisory responses carry
status 200. -/
theorem C4_auth_response_cases (env : AuthEnv) (nonces : List String)
    (nonce : String) (query : List (String × String)) :
    (env.parseAddress ((lookupK "address" query).getD "") = none →
      (serve_auth_wrapper_key env nonces nonce query).response =
        { status := 200,
          body := (lookupK "address" query).getD "" ++
            " is a malformed ZeroNet address" }) ∧
    (∀ a, env.parseAddress ((lookupK "address" query).getD "") = some a →
      (lookupK "access_key" query).getD "" = "" →
      (serve_auth_wrapper_key env nonces nonce query).response =
        { status := 200,
          body := "This API is restricted, use access_key param to Authenticate, get valid wrapper key" }) ∧
    (∀ a, env.parseAddress ((lookupK "address" query).getD "") = some a →
      (lookupK "access_key" query).getD "" ≠ "" →
      (lookupK "access_key" query).getD "" ≠ env.access_key →
      (serve_auth_wrapper_key env nonces nonce query).response =
        { status := 200, body := "Provided access_key is not Valid" }) ∧
    (∀ a, env.parseAddress ((lookupK "address" query).getD "") = some a →
      (lookupK "access_key" query).getD "" ≠ "" →
      (lookupK "access_key" query).getD "" = env.access_key →
      env.bindOk = true →
      (serve_auth_wrapper_key env nonces nonce query).response =
        { status := 200, body := "wrapper_key=" ++ nonce }) ∧
    (∀ a, env.parseAddress ((lookupK "address" query).getD "") = some a →
      (lookupK "access_key" query).getD "" ≠ "" →
      (lookupK "access_key" query).getD "" = env.access_key →
      env.bindOk = false →
      (serve_auth_wrapper_key env nonces nonce query).response.status = 400) := by
  refine ⟨?_, ?_, ?_, ?_, ?_⟩
  · intro hp
    simp [serve_auth_wrapper_key, hp]
  · intro a hp hk
    simp [serve_auth_wrapper_key, hp, hk]
  · intro a hp hk hm
    simp [serve_auth_wrapper_key, hp, hk, hm]
  · intro a hp hk hm hb
    have hne : env.access_key ≠ "" := by
      rw [← hm]
      exact hk
    simp [serve_auth_wrapper_key, hp, hk, hm, hne, hb]
  · intro a hp hk hm hb
    have hne : env.access_key ≠ "" := by
      rw [← hm]
      exact hk
    simp [serve_auth_wrapper_key, hp, hk, hm, hne, hb]

/-- C4 witness: the end-to-end success case of §8 — matching secret, valid
address, successful bind — yields status 200 with body `wrapper_key=<nonce>`;
and a wrong key at the same address yields the rejection body. -/
theorem C4_auth_response_cases_witness :
    (serve_auth_wrapper_key authEnvDemo [] "n0"
      [("address", "1Address111"), ("access_key", "secret123")]).response =
      { status := 200, body := "wrapper_key=n0" } ∧
    (serve_auth_wrapper_key authEnvDemo [] "n0"
      [("address", "1Address111"), ("access_key", "wrong")]).response =
      { status := 200, body := "Provided access_key is not Valid" } := by
  constructor
  · exact (C4_auth_response_cases authEnvDemo [] "n0"
      [("address", "1Address111"), ("access_key", "secret123")]).2.2.2.1
      "1Address111" (by decide) (by decide) (by decide) rfl
  · exact (C4_auth_response_cases authEnvDemo [] "n0"
      [("address", "1Address111"), ("access_key", "wrong")]).2.2.1
      "1Address111" (by decide) (by decide) (by decide)

/-- C10: when the query string lacks the `address` parameter entirely, the
handler falls back to the empty string, which never parses as an address, so
the response is status 200 with the malformed-address body (prefixed by the
empty address string) — not a failure or a distinct missing-parameter
error. -/
theorem C10_missing_address_param (env : AuthEnv) (nonces : List String)
    (nonce : String) (query : List (String × String))
    (hq : lookupK "address" query = none)
    (hp : env.parseAddress "" = none) :
    (serve_auth_wrapper_key env nonces nonce query).response =
      { status := 200, body := " is a malformed ZeroNet address" } := by
  simp [serve_auth_wrapper_key, hq, hp]

/-- C10 witness: a query carrying only `access_key` gets the malformed-address
body under the spec-modelled parser. -/
theorem C10_missing_address_param_witness :
    (serve_auth_wrapper_key authEnvDemo [] "n0"
      [("access_key", "secret123")]).response =
      { status := 200, body := " is a malformed ZeroNet address" } :=
  C10_missing_address_param authEnvDemo [] "n0" [("access_key", "secret123")]
    (by decide) (by decide)
/-- C9: fresh activation with a present manifest, a successful content load
and a storage-snapshot entry: when the declared wrapper key is non-empty the
nonce map binds it to the address in the post-state in every outcome — in
particular already when `connect_db` fails and no actor is ever spawned, which
is the in-order "bind strictly before spawn" guarantee — and a successful
activation also stores a handle; when the wrapper key is empty the nonce map
is untouched. -/
theorem C9_wrapper_key_bound_before_spawn (env : Env) (now : Nat)
    (s : SitesController) (address : String) (st : SiteStorage)
    (hfresh : lookupK address s.sites_addr = none)
    (hc : env.contentFile address = true)
    (hl : env.loadContentOk address = true)
    (hsnap : env.siteStorageSnap address = some st) :
    (st.keys.wrapper_key ≠ "" →
      lookupK st.keys.wrapper_key
        (SitesController.get env now s address).2.nonce = some address) ∧
    (st.keys.wrapper_key = "" →
      (SitesController.get env now s address).2.nonce = s.nonce) ∧
    (∀ h2, (SitesController.get env now s address).1 = GetResult.ok address h2 →
      lookupK address
        (SitesController.get env now s address).2.sites_addr = some h2) ∧
    ((SitesController.get env now s address).1 = GetResult.err →
      (SitesController.get env now s address).2.sites_addr = s.sites_addr) := by
  have hget : SitesController.get env now s address =
      SitesController.getFresh env now s address := by
    simp [SitesController.get, hfresh]
  rw [hget]
  by_cases hw : st.keys.wrapper_key = ""
  · cases hsch : env.loadSchema address with
    | false =>
      refine ⟨fun hcontra => absurd hw hcontra, fun _ => ?_, ?_, ?_⟩
      · simp [SitesController.getFresh, SitesController.spawnSite,
          hc, hl, hsnap, hsch, hw]
      · intro h2 hok
        simp [SitesController.getFresh, SitesController.spawnSite,
          hc, hl, hsnap, hsch, hw] at hok ⊢
        exact hok
      · intro hcontra
        simp [SitesController.getFresh, SitesController.spawnSite,
          hc, hl, hsnap, hsch, hw] at hcontra
    | true =>
      cases hcn : env.connectOk address with
      | false =>
        refine ⟨fun hcontra => absurd hw hcontra, fun _ => ?_, ?_, ?_⟩
        · simp [SitesController.getFresh, hc, hl, hsnap, hsch, hcn, hw]
        · intro h2 hcontra
          simp [SitesController.getFresh, hc, hl, hsnap, hsch, hcn, hw]
            at hcontra
        · intro _
          simp [SitesController.getFresh, hc, hl, hsnap, hsch, hcn, hw]
      | true =>
        refine ⟨fun hcontra => absurd hw hcontra, fun _ => ?_, ?_, ?_⟩
        · simp [SitesController.getFresh, SitesController.spawnSite,
            hc, hl, hsnap, hsch, hcn, hw]
        · intro h2 hok
          simp [SitesController.getFresh, SitesController.spawnSite,
            hc, hl, hsnap, hsch, hcn, hw] at hok ⊢
          exact hok
        · intro hcontra
          simp [SitesController.getFresh, SitesController.spawnSite,
            hc, hl, hsnap, hsch, hcn, hw] at hcontra
  · cases hsch : env.loadSchema address with
    | false =>
      refine ⟨fun _ => ?_, fun hcontra => absurd hcontra hw, ?_, ?_⟩
      · simp [SitesController.getFresh, SitesController.spawnSite,
          hc, hl, hsnap, hsch, hw]
      · intro h2 hok
        simp [SitesController.getFresh, SitesController.spawnSite,
          hc, hl, hsnap, hsch, hw] at hok ⊢
        exact hok
      · intro hcontra
        simp [SitesController.getFresh, SitesController.spawnSite,
          hc, hl, hsnap, hsch, hw] at hcontra
    | true =>
      cases hcn : env.connectOk address with
      | false =>
        refine ⟨fun _ => ?_, fun hcontra => absurd hcontra hw, ?_, ?_⟩
        · simp [SitesController.getFresh, hc, hl, hsnap, hsch, hcn, hw]
        · intro h2 hcontra
          simp [SitesController.getFresh, hc, hl, hsnap, hsch, hcn, hw]
            at hcontra
        · intro _
          simp [SitesController.getFresh, hc, hl, hsnap, hsch, hcn, hw]
      | true =>
        refine ⟨fun _ => ?_, fun hcontra => absurd hcontra hw, ?_, ?_⟩
        · simp [SitesController.getFresh, SitesController.spawnSite,
            hc, hl, hsnap, hsch, hcn, hw]
        · intro h2 hok
          simp [SitesController.getFresh, SitesController.spawnSite,
            hc, hl, hsnap, hsch, hcn, hw] at hok ⊢
          exact hok
        · intro hcontra
          simp [SitesController.getFresh, SitesController.spawnSite,
            hc, hl, hsnap, hsch, hcn, hw] at hcontra
/-- A concrete environment whose storage snapshot declares the demo site's
keys for every address. -/
def envSnap : Env :=
  { contentFile := fun _ => true,
    loadContentOk := fun _ => true,
    siteStorageSnap := fun _ => some siteDemo.storage,
    pathExists := fun _ => true,
    loadSchema := fun _ => false,
    connectOk := fun _ => true }

/-- C9 witness: fresh activation of the demo address binds its wrapper key in
the nonce map. -/
theorem C9_wrapper_key_bound_before_spawn_witness :
    lookupK "wk1"
      (SitesController.get envSnap 3 (SitesController.new 0)
        "1Address111").2.nonce = some "1Address111" :=
  (C9_wrapper_key_bound_before_spawn envSnap 3 (SitesController.new 0)
    "1Address111" siteDemo.storage (by decide) rfl rfl rfl).1 (by decide)

/-- Bootstrap entry success test: the site directory exists (line 134) and the
content load succeeds (line 138). -/
def entrySucceeds (env : Env) (e : String × SiteStorage) : Bool :=
  env.pathExists e.1 && env.loadContentOk e.1

theorem foldl_processEntry_sites (env : Env)
    (entries : List (String × SiteStorage)) :
    ∀ (s : SitesController) (a : String),
      (lookupK a (entries.foldl (processEntry env) s).sites).isSome =
        ((lookupK a s.sites).isSome ||
          entries.any (fun e => e.1 == a && entrySucceeds env e)) := by
  induction entries with
  | nil =>
    intro s a
    simp
  | cons e rest ih =>
    intro s a
    rw [List.foldl_cons, List.any_cons, ih]
    have hstep : (lookupK a (processEntry env s e).sites).isSome =
        ((lookupK a s.sites).isSome || (e.1 == a && entrySucceeds env e)) := by
      unfold processEntry entrySucceeds
      cases hp : env.pathExists e.1 with
      | false => simp [hp]
      | true =>
        cases hl : env.loadContentOk e.1 with
        | false => simp [hp, hl]
        | true =>
          by_cases ha : e.1 = a
          · subst ha
            simp [hp, hl, insertK]
          · simp [hp, hl, insertK, ha]
    rw [hstep, Bool.or_assoc]

theorem foldl_processEntry_nonce_preserved (env : Env)
    (entries : List (String × SiteStorage)) :
    ∀ (s : SitesController) (k : String),
      (∀ e ∈ entries, entrySucceeds env e = true →
        e.2.keys.wrapper_key ≠ k) →
      lookupK k (entries.foldl (processEntry env) s).nonce =
        lookupK k s.nonce := by
  induction entries with
  | nil =>
    intro s k _
    rfl
  | cons e rest ih =>
    intro s k hk
    rw [List.foldl_cons,
      ih (processEntry env s e) k
        (fun e' he' => hk e' (List.mem_cons_of_mem e he'))]
    unfold processEntry
    cases hp : env.pathExists e.1 with
    | false => simp
    | true =>
      cases hl : env.loadContentOk e.1 with
      | false => simp
      | true =>
        have hne : e.2.keys.wrapper_key ≠ k :=
          hk e (List.mem_cons_self e rest) (by simp [entrySucceeds, hp, hl])
        simp [insertK, hne]

theorem foldl_processEntry_ajax_preserved (env : Env)
    (entries : List (String × SiteStorage)) :
    ∀ (s : SitesController) (k : String),
      (∀ e ∈ entries, entrySucceeds env e = true → e.2.keys.ajax_key ≠ k) →
      lookupK k (entries.foldl (processEntry env) s).ajax_keys =
        lookupK k s.ajax_keys := by
  induction entries with
  | nil =>
    intro s k _
    rfl
  | cons e rest ih =>
    intro s k hk
    rw [List.foldl_cons,
      ih (processEntry env s e) k
        (fun e' he' => hk e' (List.mem_cons_of_mem e he'))]
    unfold processEntry
    cases hp : env.pathExists e.1 with
    | false => simp
    | true =>
      cases hl : env.loadContentOk e.1 with
      | false => simp
      | true =>
        have hne : e.2.keys.ajax_key ≠ k :=
          hk e (List.mem_cons_self e rest) (by simp [entrySucceeds, hp, hl])
        simp [insertK, hne]

theorem foldl_processEntry_nonce_bound (env : Env) :
    ∀ (entries : List (String × SiteStorage)) (s : SitesController),
      List.Pairwise
        (fun e1 e2 => e1.2.keys.wrapper_key ≠ e2.2.keys.wrapper_key)
        entries →
      ∀ e ∈ entries, entrySucceeds env e = true →
        lookupK e.2.keys.wrapper_key
          (entries.foldl (processEntry env) s).nonce = some e.1 := by
  intro entries
  induction entries with
  | nil =>
    intro s _ e he
    cases he
  | cons e0 rest ih =>
    intro s hpw e he hs
    rcases List.pairwise_cons.mp hpw with ⟨hhead, htail⟩
    rw [List.foldl_cons]
    rcases List.mem_cons.mp he with he0 | hrest
    · subst he0
      rw [foldl_processEntry_nonce_preserved env rest (processEntry env s e) _
        (fun e' he' _ => Ne.symm (hhead e' he'))]
      simp only [entrySucceeds, Bool.and_eq_true] at hs
      unfold processEntry
      simp [hs.1, hs.2, insertK]
    · exact ih (processEntry env s e0) htail e hrest hs

theorem foldl_processEntry_ajax_bound (env : Env) :
    ∀ (entries : List (String × SiteStorage)) (s : SitesController),
      List.Pairwise (fun e1 e2 => e1.2.keys.ajax_key ≠ e2.2.keys.ajax_key)
        entries →
      ∀ e ∈ entries, entrySucceeds env e = true →
        lookupK e.2.keys.ajax_key
          (entries.foldl (processEntry env) s).ajax_keys = some e.1 := by
  intro entries
  induction entries with
  | nil =>
    intro s _ e he
    cases he
  | cons e0 rest ih =>
    intro s hpw e he hs
    rcases List.pairwise_cons.mp hpw with ⟨hhead, htail⟩
    rw [List.foldl_cons]
    rcases List.mem_cons.mp he with he0 | hrest
    · subst he0
      rw [foldl_processEntry_ajax_preserved env rest (processEntry env s e) _
        (fun e' he' _ => Ne.symm (hhead e' he'))]
      simp only [entrySucceeds, Bool.and_eq_true] at hs
      unfold processEntry
      simp [hs.1, hs.2, insertK]
    · exact ih (processEntry env s e0) htail e hrest hs

/-- C5: bootstrap registers exactly the entries whose directory exists and
whose content load succeeds — one entry's failure never blocks the others —
and binds each successful entry's wrapper key and ajax key to its address
(stated under pairwise-distinct keys, since a duplicated key would be
overwritten by the later entry); `sites_changed` is set to the bootstrap
clock, hence does not decrease when the clock has not gone backwards. -/
theorem C5_bootstrap_registers_exactly_successes (env : Env) (now : Nat)
    (s : SitesController) (entries : List (String × SiteStorage)) :
    (∀ a, (lookupK a
        (SitesController.extend_sites_from_sitedata env now s entries).sites).isSome =
      ((lookupK a s.sites).isSome ||
        entries.any (fun e => e.1 == a && entrySucceeds env e))) ∧
    (List.Pairwise
        (fun e1 e2 => e1.2.keys.wrapper_key ≠ e2.2.keys.wrapper_key)
        entries →
      ∀ e ∈ entries, entrySucceeds env e = true →
        lookupK e.2.keys.wrapper_key
          (SitesController.extend_sites_from_sitedata env now s entries).nonce =
          some e.1) ∧
    (List.Pairwise (fun e1 e2 => e1.2.keys.ajax_key ≠ e2.2.keys.ajax_key)
        entries →
      ∀ e ∈ entries, entrySucceeds env e = true →
        lookupK e.2.keys.ajax_key
          (SitesController.extend_sites_from_sitedata env now s
            entries).ajax_keys = some e.1) ∧
    (SitesController.extend_sites_from_sitedata env now s
      entries).sites_changed = now ∧
    (s.sites_changed ≤ now →
      s.sites_changed ≤
        (SitesController.extend_sites_from_sitedata env now s
          entries).sites_changed) := by
  have hsites : (SitesController.extend_sites_from_sitedata env now s
      entries).sites = (entries.foldl (processEntry env) s).sites := rfl
  have hnon : (SitesController.extend_sites_from_sitedata env now s
      entries).nonce = (entries.foldl (processEntry env) s).nonce := rfl
  have hajax : (SitesController.extend_sites_from_sitedata env now s
      entries).ajax_keys = (entries.foldl (processEntry env) s).ajax_keys := rfl
  refine ⟨?_, ?_, ?_, rfl, ?_⟩
  · intro a
    rw [hsites]
    exact foldl_processEntry_sites env entries s a
  · intro hpw e he hs
    rw [hnon]
    exact foldl_processEntry_nonce_bound env entries s hpw e he hs
  · intro hpw e he hs
    rw [hajax]
    exact foldl_processEntry_ajax_bound env entries s hpw e he hs
  · intro hle
    exact hle
theorem getFresh_outcomes (env : Env) (now : Nat) (s : SitesController)
    (a : String) :
    ((SitesController.getFresh env now s a).2.sites_changed = now ∧
      ∃ h2, (SitesController.getFresh env now s a).1 = GetResult.ok a h2) ∨
    ((SitesController.getFresh env now s a).2.sites_changed =
        s.sites_changed ∧
      ((SitesController.getFresh env now s a).1 = GetResult.err ∨
        (SitesController.getFresh env now s a).1 = GetResult.panicked)) := by
  cases hc : env.contentFile a with
  | false =>
    right
    refine ⟨by simp [SitesController.getFresh, hc], Or.inr ?_⟩
    simp [SitesController.getFresh, hc]
  | true =>
    cases hl : env.loadContentOk a with
    | false =>
      right
      refine ⟨by simp [SitesController.getFresh, hc, hl], Or.inl ?_⟩
      simp [SitesController.getFresh, hc, hl]
    | true =>
      cases hsnap : env.siteStorageSnap a with
      | none =>
        cases hsch : env.loadSchema a with
        | false =>
          left
          refine ⟨by simp [SitesController.getFresh,
            SitesController.spawnSite, hc, hl, hsnap, hsch], s.nextHandle, ?_⟩
          simp [SitesController.getFresh, SitesController.spawnSite,
            hc, hl, hsnap, hsch]
        | true =>
          cases hcn : env.connectOk a with
          | false =>
            right
            refine ⟨by simp [SitesController.getFresh, hc, hl, hsnap, hsch,
              hcn], Or.inl ?_⟩
            simp [SitesController.getFresh, hc, hl, hsnap, hsch, hcn]
          | true =>
            left
            refine ⟨by simp [SitesController.getFresh,
              SitesController.spawnSite, hc, hl, hsnap, hsch, hcn],
              s.nextHandle, ?_⟩
            simp [SitesController.getFresh, SitesController.spawnSite,
              hc, hl, hsnap, hsch, hcn]
      | some st =>
        by_cases hw : st.keys.wrapper_key = "" <;>
        · cases hsch : env.loadSchema a with
          | false =>
            left
            refine ⟨by simp [SitesController.getFresh,
              SitesController.spawnSite, hc, hl, hsnap, hsch, hw],
              s.nextHandle, ?_⟩
            simp [SitesController.getFresh, SitesController.spawnSite,
              hc, hl, hsnap, hsch, hw]
          | true =>
            cases hcn : env.connectOk a with
            | false =>
              right
              refine ⟨by simp [SitesController.getFresh, hc, hl, hsnap,
                hsch, hcn, hw], Or.inl ?_⟩
              simp [SitesController.getFresh, hc, hl, hsnap, hsch, hcn, hw]
            | true =>
              left
              refine ⟨by simp [SitesController.getFresh,
                SitesController.spawnSite, hc, hl, hsnap, hsch, hcn, hw],
                s.nextHandle, ?_⟩
              simp [SitesController.getFresh, SitesController.spawnSite,
                hc, hl, hsnap, hsch, hcn, hw]

theorem get_sites_changed_cases (env : Env) (now : Nat) (s : SitesController)
    (a : String) :
    (SitesController.get env now s a).2.sites_changed = now ∨
    (SitesController.get env now s a).2.sites_changed = s.sites_changed := by
  unfold SitesController.get
  cases hh : lookupK a s.sites_addr with
  | none =>
    rcases getFresh_outcomes env now s a with ⟨h1, -⟩ | ⟨h1, -⟩
    · exact Or.inl h1
    · exact Or.inr h1
  | some h =>
    cases hc : env.contentFile a with
    | true => exact Or.inr (by simp [hc])
    | false =>
      simp only [hc, Bool.false_eq_true, if_false]
      rcases getFresh_outcomes env now s a with ⟨h1, -⟩ | ⟨h1, -⟩
      · exact Or.inl h1
      · exact Or.inr h1

theorem stepOp_sites_changed_cases (env : Env) (s : SitesController)
    (op : RegOp) :
    (stepOp env s op).sites_changed = op.clock ∨
    (stepOp env s op).sites_changed = s.sites_changed := by
  cases op with
  | add n site => exact Or.inl rfl
  | remove n a => exact Or.inl rfl
  | extendOp n m => exact Or.inl rfl
  | bootstrap n es => exact Or.inl rfl
  | activate n a => exact get_sites_changed_cases env n s a

theorem runOps_counter_mono (env : Env) :
    ∀ (ops : List RegOp) (s : SitesController), ClockOk env s ops →
      s.sites_changed ≤ (runOps env s ops).sites_changed := by
  intro ops
  induction ops with
  | nil =>
    intro s _
    exact le_refl _
  | cons op rest ih =>
    intro s hco
    simp only [ClockOk] at hco
    obtain ⟨h1, h2⟩ := hco
    have htail := ih (stepOp env s op) h2
    rcases stepOp_sites_changed_cases env s op with h | h
    · calc s.sites_changed ≤ op.clock := h1
        _ = (stepOp env s op).sites_changed := h.symm
        _ ≤ (runOps env (stepOp env s op) rest).sites_changed := htail
    · rw [← h]
      exact htail

theorem get_fresh_ok_sites_changed (env : Env) (now : Nat)
    (s : SitesController) (a : String) (h2 : Nat)
    (hfresh : lookupK a s.sites_addr = none)
    (hok : (SitesController.get env now s a).1 = GetResult.ok a h2) :
    (SitesController.get env now s a).2.sites_changed = now := by
  have hg : SitesController.get env now s a =
      SitesController.getFresh env now s a := by
    simp [SitesController.get, hfresh]
  rw [hg] at hok ⊢
  rcases getFresh_outcomes env now s a with ⟨h1, -⟩ | ⟨-, herr | hpan⟩
  · exact h1
  · rw [hok] at herr
    simp at herr
  · rw [hok] at hpan
    simp at hpan

/-- C7: over every operation sequence whose clock readings never lag the
stored counter, `sites_changed` is non-decreasing end to end; and every
mutating operation — `add_site`, `remove_site`, `extend_sites`,
`extend_sites_from_sitedata`, and a successful fresh activation through
`get` — stores its clock reading in the counter. -/
theorem C7_sites_changed_monotone (env : Env) (s : SitesController)
    (ops : List RegOp) :
    (ClockOk env s ops →
      s.sites_changed ≤ (runOps env s ops).sites_changed) ∧
    (∀ n site, (stepOp env s (RegOp.add n site)).sites_changed = n) ∧
    (∀ n a, (stepOp env s (RegOp.remove n a)).sites_changed = n) ∧
    (∀ n m, (stepOp env s (RegOp.extendOp n m)).sites_changed = n) ∧
    (∀ n es, (stepOp env s (RegOp.bootstrap n es)).sites_changed = n) ∧
    (∀ n a h2, lookupK a s.sites_addr = none →
      (SitesController.get env n s a).1 = GetResult.ok a h2 →
      (SitesController.get env n s a).2.sites_changed = n) := by
  refine ⟨fun hco => runOps_counter_mono env ops s hco,
    fun n site => rfl, fun n a => rfl, fun n m => rfl, fun n es => rfl,
    fun n a h2 hfresh hok =>
      get_fresh_ok_sites_changed env n s a h2 hfresh hok⟩
/-- C3 witness: resolving the demo wrapper key yields the demo address and
handle, with the registry state untouched. -/
theorem C3_get_by_key_characterisation_witness :
    (SitesController.get_by_key sDemo "wk1").1 =
      Except.ok ("1Address111", 7) ∧
    (SitesController.get_by_key sDemo "wk1").2 = sDemo := by
  constructor
  · exact ((C3_get_by_key_characterisation sDemo "wk1").2.1
      "1Address111" 7).mpr ⟨by decide, by decide⟩
  · exact (C3_get_by_key_characterisation sDemo "wk1").1

/-- C2 (amended) witness: on a matching secret the bind request carries the
parsed address and the fresh nonce, and the audit set gained the nonce. -/
theorem C2_bind_request_only_on_match_witness :
    (serve_auth_wrapper_key authEnvDemo [] "n1"
      [("address", "1Address111"), ("access_key", "secret123")]).bindRequest =
      some ("1Address111", "n1") ∧
    (serve_auth_wrapper_key authEnvDemo [] "n1"
      [("address", "1Address111"),
        ("access_key", "secret123")]).wrapper_nonces = ["n1"] := by
  constructor
  · exact ((C2_bind_request_only_on_match authEnvDemo [] "n1"
      [("address", "1Address111"), ("access_key", "secret123")]).2.1
      "1Address111").mpr ⟨by decide, by decide, by decide⟩
  · exact (C2_bind_request_only_on_match authEnvDemo [] "n1"
      [("address", "1Address111"), ("access_key", "secret123")]).1

/-- Storage metadata of the first bootstrap demo entry. -/
def stA : SiteStorage := { keys := { wrapper_key := "wa", ajax_key := "aa" } }

/-- Storage metadata of the second bootstrap demo entry. -/
def stB : SiteStorage := { keys := { wrapper_key := "wb", ajax_key := "ab" } }

/-- A mixed bootstrap environment: only address `1A` has a site directory and
a loadable manifest. -/
def envMixed : Env :=
  { contentFile := fun a => a == "1A",
    loadContentOk := fun a => a == "1A",
    siteStorageSnap := fun _ => none,
    pathExists := fun a => a == "1A",
    loadSchema := fun _ => false,
    connectOk := fun _ => true }

/-- C5 witness: over one present and one missing root, bootstrap registers
only the present one, binds its wrapper key, and the counter does not
decrease. -/
theorem C5_bootstrap_registers_exactly_successes_witness :
    (lookupK "1A" (SitesController.extend_sites_from_sitedata envMixed 9
      (SitesController.new 2) [("1A", stA), ("1B", stB)]).sites).isSome =
      true ∧
    (lookupK "1B" (SitesController.extend_sites_from_sitedata envMixed 9
      (SitesController.new 2) [("1A", stA), ("1B", stB)]).sites).isSome =
      false ∧
    lookupK "wa" (SitesController.extend_sites_from_sitedata envMixed 9
      (SitesController.new 2) [("1A", stA), ("1B", stB)]).nonce =
      some "1A" ∧
    (SitesController.new 2).sites_changed ≤
      (SitesController.extend_sites_from_sitedata envMixed 9
        (SitesController.new 2) [("1A", stA), ("1B", stB)]).sites_changed := by
  refine ⟨?_, ?_, ?_, ?_⟩
  · rw [(C5_bootstrap_registers_exactly_successes envMixed 9
      (SitesController.new 2) [("1A", stA), ("1B", stB)]).1 "1A"]
    decide
  · rw [(C5_bootstrap_registers_exactly_successes envMixed 9
      (SitesController.new 2) [("1A", stA), ("1B", stB)]).1 "1B"]
    decide
  · exact (C5_bootstrap_registers_exactly_successes envMixed 9
      (SitesController.new 2) [("1A", stA), ("1B", stB)]).2.1
      (by decide) ("1A", stA) (by simp) (by decide)
  · exact (C5_bootstrap_registers_exactly_successes envMixed 9
      (SitesController.new 2) [("1A", stA), ("1B", stB)]).2.2.2.2 (by decide)

/-- C7 witness: a concrete add-then-remove sequence with a forward-running
clock keeps the counter non-decreasing, and `add_site` stores its clock. -/
theorem C7_sites_changed_monotone_witness :
    (SitesController.new 5).sites_changed ≤
      (runOps envAllPresent (SitesController.new 5)
        [RegOp.add 10 siteDemo,
          RegOp.remove 11 "1Address111"]).sites_changed ∧
    (stepOp envAllPresent (SitesController.new 5)
      (RegOp.add 10 siteDemo)).sites_changed = 10 := by
  constructor
  · exact (C7_sites_changed_monotone envAllPresent (SitesController.new 5)
      [RegOp.add 10 siteDemo, RegOp.remove 11 "1Address111"]).1
      ⟨by decide, by decide, trivial⟩
  · exact (C7_sites_changed_monotone envAllPresent (SitesController.new 5)
      []).2.1 10 siteDemo
